import Mathlib

/-!
Verification of the Movement Analysis backend (`backend/app/main.py`).

The development shallowly embeds `analyze_video` and the `/upload` handler.
External library behaviour is modelled as data supplied to the run:

* the video reader is a `ReaderProps` record (whether the file opened, and the
  reported width / height / fps, i.e. the values of `int(cap.get(...))` and
  `cap.get(cv2.CAP_PROP_FPS)`);
* the sequence of successfully read frames is a `List Frame`; the list ending
  models `cap.read()` returning failure (the loop's `break`);
* each `Frame` carries the decoded image, whether the pose estimator detected a
  pose on it, the detected landmarks, and a flag `fails` meaning that some
  library call while processing this frame (pose inference, drawing, rotation,
  encoding) raises an exception;
* the landmark-drawing routine `mp_drawing.draw_landmarks` is an opaque
  image transformation `draw : Image → Image` passed as a parameter.

Python floats are modelled as rationals; Python ints as `Int` (`Nat` where the
source guarantees non-negativity).
-/

namespace MovementAnalysis

/-- Truncation of a rational toward zero: the value of Python `int(x)` on a
float `x`.  `Int.tdiv` is T-division, i.e. truncation toward zero. -/
def ratTrunc (q : ℚ) : Int := q.num.tdiv (q.den : Int)

/-- Floor of a rational (`q.den` is positive, so Euclidean division by it
floors). -/
def ratFloor (q : ℚ) : Int := q.num.ediv (q.den : Int)

/-- Modelled from the spec: Python `round(x)` on a float, i.e. rounding to the
nearest integer with ties going to the even integer.  This definition follows
the spec's word `round` in `sample_interval = max(round(frame_rate), 1)`; the
source itself uses `int(fps)`.  Used only to compare the spec's formula with
the source's. -/
def spec_round (q : ℚ) : Int :=
  let f := ratFloor q
  let rem2 := 2 * (q.num - f * (q.den : Int))
  if rem2 < (q.den : Int) then f
  else if (q.den : Int) < rem2 then f + 1
  else if f % 2 = 0 then f else f + 1

/-- Modelled from the spec: the sampling interval the spec claims,
`max(round(frame_rate), 1)`. -/
def spec_sample_interval (q : ℚ) : Int := max (spec_round q) 1

/-- Source line `sample_interval = max(int(fps), 1)`.  The result is a positive
integer, represented as `Nat`. -/
def sampleInterval (fps : ℚ) : Nat := (max (ratTrunc fps) 1).toNat

/-- Source line `width = int(cap.get(cv2.CAP_PROP_FRAME_WIDTH)) or 640`.
Python `or` on an int substitutes exactly when the left operand is `0`. -/
def subWidth (w : Int) : Int := if w = 0 then 640 else w

/-- Source line `height = int(cap.get(cv2.CAP_PROP_FRAME_HEIGHT)) or 480`. -/
def subHeight (h : Int) : Int := if h = 0 then 480 else h

/-- Source line `fps = cap.get(cv2.CAP_PROP_FPS) or 30.0`.  Python `or` on a
float substitutes exactly when the left operand equals `0.0`. -/
def subFps (f : ℚ) : ℚ := if f = 0 then 30 else f

/-- A decoded frame image: `w` columns, `h` rows, and a pixel map
(column, row) ↦ value. -/
structure Image where
  w : Nat
  h : Nat
  pix : Nat → Nat → Nat

/-- `cv2.rotate(frame, cv2.ROTATE_90_CLOCKWISE)`: the result has the source's
height as its width and vice versa; destination pixel (x, y) comes from source
pixel (y, h − 1 − x). -/
def rotate90cw (img : Image) : Image :=
  ⟨img.h, img.w, fun x y => img.pix y (img.h - 1 - x)⟩

/-- A single pose landmark as reported by the estimator: normalized
coordinates and a visibility score. -/
structure Landmark where
  x : ℚ
  y : ℚ
  visibility : ℚ
deriving DecidableEq

/-- One landmark record of a keypoint sample, as placed in the response:
`{"name": ..., "x": ..., "y": ..., "visibility": ...}`. -/
structure LandmarkRecord where
  name : String
  x : ℚ
  y : ℚ
  visibility : ℚ
deriving DecidableEq

/-- Modelled from the spec: the pose-estimation library's canonical landmark
enumeration (`mp_pose.PoseLandmark`), a fixed ordered vocabulary of 33 named
anatomical points.  The library itself is outside `src/`. -/
def poseLandmarkNames : List String :=
  ["NOSE", "LEFT_EYE_INNER", "LEFT_EYE", "LEFT_EYE_OUTER", "RIGHT_EYE_INNER",
   "RIGHT_EYE", "RIGHT_EYE_OUTER", "LEFT_EAR", "RIGHT_EAR", "MOUTH_LEFT",
   "MOUTH_RIGHT", "LEFT_SHOULDER", "RIGHT_SHOULDER", "LEFT_ELBOW",
   "RIGHT_ELBOW", "LEFT_WRIST", "RIGHT_WRIST", "LEFT_PINKY", "RIGHT_PINKY",
   "LEFT_INDEX", "RIGHT_INDEX", "LEFT_THUMB", "RIGHT_THUMB", "LEFT_HIP",
   "RIGHT_HIP", "LEFT_KNEE", "RIGHT_KNEE", "LEFT_ANKLE", "RIGHT_ANKLE",
   "LEFT_HEEL", "RIGHT_HEEL", "LEFT_FOOT_INDEX", "RIGHT_FOOT_INDEX"]

/-- `mp_pose.PoseLandmark(idx).name`. -/
def landmarkName (i : Nat) : String := poseLandmarkNames.getD i ""

/-- The list comprehension building one keypoint sample: enumerate the
detected landmarks and record name, x, y and visibility for each. -/
def mkSample (lms : List Landmark) : List LandmarkRecord :=
  lms.enum.map (fun p => ⟨landmarkName p.1, p.2.x, p.2.y, p.2.visibility⟩)

/-- One successfully read frame together with the behaviour of the external
libraries on it: whether a pose is detected, the landmarks if so, and whether
some library call raises while processing it. -/
structure Frame where
  img : Image
  detected : Bool
  landmarks : List Landmark
  fails : Bool

/-- What the video reader reports when opened on the input path. -/
structure ReaderProps where
  opened : Bool
  width : Int
  height : Int
  fps : ℚ

/-- The two error kinds of the analysis: the input cannot be opened, or some
library call raises during the frame loop. -/
inductive VideoError where
  | openFailure
  | loopFailure
deriving DecidableEq

/-- Observable state of one `analyze_video` run: the substituted video
properties, the writer's constructor arguments, the keypoint samples
accumulated, the frames written, whether `cap.release()` / `writer.release()`
executed, and the error (if any) that propagates to the caller. -/
structure RunState where
  videoDims : Option (Int × Int)
  writerFps : Option ℚ
  writerDims : Option (Int × Int)
  writerCreated : Bool
  interval : Option Nat
  samples : List (List LandmarkRecord)
  written : List Image
  capReleased : Bool
  writerReleased : Bool
  error : Option VideoError

/-- The `while True` frame loop.  Per frame (in source order): if a library
call raises, the exception propagates (third component `true`) and the loop is
abandoned; otherwise the frame is annotated when a pose was detected, a sample
is captured when `frame_index % sample_interval == 0` and fewer than 3 samples
exist, and the 90°-clockwise-rotated frame is appended to the writer.  The
frame index increments once per processed frame.  The list of frames ending
models `cap.read()` failing, i.e. the loop's `break`. -/
def frameLoop (draw : Image → Image) (interval : Nat) (frames : List Frame)
    (idx : Nat) (samples : List (List LandmarkRecord)) (written : List Image) :
    List (List LandmarkRecord) × List Image × Bool :=
  match frames with
  | [] => (samples, written, false)
  | f :: rest =>
    if f.fails then (samples, written, true)
    else
      frameLoop draw interval rest (idx + 1)
        (if f.detected = true ∧ idx % interval = 0 ∧ samples.length < 3
         then samples ++ [mkSample f.landmarks] else samples)
        (written ++ [rotate90cw (if f.detected then draw f.img else f.img)])

/-- The body of `analyze_video`, as an explicit state: open the reader (raising
`openFailure` before the writer is constructed if that fails), substitute
defaults into the reported properties, construct the writer at the swapped
(rotated) dimensions, run the frame loop, and release reader and writer — the
release statements sit after the loop with no `finally`, so they execute only
when no exception escaped the loop. -/
def runAnalysis (draw : Image → Image) (r : ReaderProps) (frames : List Frame) :
    RunState :=
  if r.opened then
    let w := subWidth r.width
    let h := subHeight r.height
    let fps := subFps r.fps
    let interval := sampleInterval fps
    let res := frameLoop draw interval frames 0 [] []
    { videoDims := some (w, h)
      writerFps := some fps
      writerDims := some (h, w)
      writerCreated := true
      interval := some interval
      samples := res.1
      written := res.2.1
      capReleased := !res.2.2
      writerReleased := !res.2.2
      error := if res.2.2 then some VideoError.loopFailure else none }
  else
    { videoDims := none, writerFps := none, writerDims := none
      writerCreated := false, interval := none, samples := []
      written := [], capReleased := false, writerReleased := false
      error := some VideoError.openFailure }

/-- `annotated_path = video_path.with_name(f"{stem}_annotated{suffix}")`:
the returned annotated file name. -/
def annotatedName (stem ext : String) : String := stem ++ "_annotated" ++ ext

/-- `analyze_video` as seen by its caller: either an error propagates, or the
annotated file name and the keypoint samples are returned. -/
def analyze_video (draw : Image → Image) (r : ReaderProps) (frames : List Frame)
    (stem ext : String) :
    Except VideoError (String × List (List LandmarkRecord)) :=
  let run := runAnalysis draw r frames
  match run.error with
  | some e => Except.error e
  | none => Except.ok (annotatedName stem ext, run.samples)

/-- The response of the `/upload` endpoint: either the success payload or an
HTTP error status with a detail message. -/
inductive UploadResponse where
  | success (message filename annotated : String)
      (keypoints : List (List LandmarkRecord))
  | failure (status : Nat) (detail : String)
deriving DecidableEq

/-- The fixed user-facing detail of the `HTTPException`. -/
def failureDetail : String := "Analyse des Videos fehlgeschlagen"

/-- The success message of the JSON payload. -/
def successMessage : String := "Video erfolgreich analysiert"

/-- The `try`/`except` of `upload_video`: any exception from `analyze_video`
becomes a 500 with the fixed detail; on success the full payload is
returned. -/
def upload_video (draw : Image → Image) (r : ReaderProps) (frames : List Frame)
    (stem ext generatedName : String) : UploadResponse :=
  match analyze_video draw r frames stem ext with
  | Except.error _ => UploadResponse.failure 500 failureDetail
  | Except.ok res =>
      UploadResponse.success successMessage generatedName res.1 res.2

/-- Number of sampling-slot frames carrying a detection: frames whose absolute
index is a multiple of the interval and on which a pose was detected. -/
def slotDetectedCount (interval : Nat) (idx : Nat) (frames : List Frame) : Nat :=
  match frames with
  | [] => 0
  | f :: rest =>
    (if idx % interval = 0 ∧ f.detected = true then 1 else 0) +
      slotDetectedCount interval (idx + 1) rest

theorem frameLoop_samples_length_le (draw : Image → Image) (interval : Nat) :
    ∀ (frames : List Frame) (idx : Nat) (samples : List (List LandmarkRecord))
      (written : List Image), samples.length ≤ 3 →
      (frameLoop draw interval frames idx samples written).1.length ≤ 3 := by
  intro frames
  induction frames with
  | nil => intro idx samples written h; simpa [frameLoop] using h
  | cons f rest ih =>
    intro idx samples written h
    simp only [frameLoop]
    by_cases hf : f.fails = true
    · simpa [hf] using h
    · rw [if_neg hf]
      apply ih
      split
      · rename_i hc
        have := hc.2.2
        simp only [List.length_append, List.length_cons, List.length_nil]
        omega
      · exact h

theorem frameLoop_exn (draw : Image → Image) (interval : Nat) :
    ∀ (frames : List Frame) (idx : Nat) (samples : List (List LandmarkRecord))
      (written : List Image),
      (frameLoop draw interval frames idx samples written).2.2
        = frames.any (fun f => f.fails) := by
  intro frames
  induction frames with
  | nil => intro idx samples written; simp [frameLoop]
  | cons f rest ih =>
    intro idx samples written
    simp only [frameLoop, List.any_cons]
    by_cases hf : f.fails = true
    · simp [hf]
    · simp only [Bool.not_eq_true] at hf
      simp [hf, ih]

theorem frameLoop_written_of_ok (draw : Image → Image) (interval : Nat) :
    ∀ (frames : List Frame) (idx : Nat) (samples : List (List LandmarkRecord))
      (written : List Image), (∀ f ∈ frames, f.fails = false) →
      (frameLoop draw interval frames idx samples written).2.1
        = written ++ frames.map
            (fun f => rotate90cw (if f.detected then draw f.img else f.img)) := by
  intro frames
  induction frames with
  | nil => intro idx samples written _; simp [frameLoop]
  | cons f rest ih =>
    intro idx samples written hok
    have hf : f.fails = false := hok f (by simp)
    simp only [frameLoop, hf, Bool.false_eq_true, if_false, List.map_cons]
    rw [ih _ _ _ (fun g hg => hok g (by simp [hg]))]
    simp

theorem frameLoop_samples_count (draw : Image → Image) (interval : Nat) :
    ∀ (frames : List Frame) (idx : Nat) (samples : List (List LandmarkRecord))
      (written : List Image), (∀ f ∈ frames, f.fails = false) →
      samples.length ≤ 3 →
      (frameLoop draw interval frames idx samples written).1.length
        = min 3 (samples.length + slotDetectedCount interval idx frames) := by
  intro frames
  induction frames with
  | nil => intro idx samples written _ h3; simp only [frameLoop, slotDetectedCount]; omega
  | cons f rest ih =>
    intro idx samples written hok h3
    have hf : f.fails = false := hok f (by simp)
    have hrest : ∀ g ∈ rest, g.fails = false := fun g hg => hok g (by simp [hg])
    simp only [frameLoop, hf, Bool.false_eq_true, if_false, slotDetectedCount]
    by_cases hd : idx % interval = 0 ∧ f.detected = true
    · rw [if_pos hd]
      by_cases hlen : samples.length < 3
      · rw [if_pos ⟨hd.2, hd.1, hlen⟩,
          ih _ _ _ hrest (by simp only [List.length_append, List.length_cons,
            List.length_nil]; omega)]
        simp only [List.length_append, List.length_cons, List.length_nil]
        omega
      · rw [if_neg (fun hc => hlen hc.2.2), ih _ _ _ hrest h3]
        omega
    · rw [if_neg (fun hc => hd ⟨hc.2.1, hc.1⟩), if_neg (fun hc => hd hc),
        ih _ _ _ hrest h3]
      omega

/-- C1 (counterexample): the claim says the sampling interval is
`max(round(frame_rate), 1)`.  The source computes `max(int(fps), 1)`, which
truncates instead of rounding: at a reported frame rate of 1.9 (positive, so
unchanged by default substitution) the source interval is 1 while the claimed
formula gives 2. -/
theorem sampleInterval_ne_spec_round :
    sampleInterval (subFps (mkRat 19 10)) = 1 ∧
    spec_sample_interval (mkRat 19 10) = 2 ∧
    (sampleInterval (subFps (mkRat 19 10)) : Int)
      ≠ spec_sample_interval (mkRat 19 10) := by
  refine ⟨by decide, by decide, by decide⟩

/-- C1 (amended): for every frame rate, after default substitution, the
sampling interval used by the run equals `max(trunc(frame_rate), 1)` —
truncation toward zero (Python `int`), not rounding to nearest — and is at
least 1. -/
theorem sampleInterval_eq_trunc (draw : Image → Image) (r : ReaderProps)
    (frames : List Frame) (h : r.opened = true) :
    (runAnalysis draw r frames).interval = some (sampleInterval (subFps r.fps)) ∧
    (sampleInterval (subFps r.fps) : Int) = max (ratTrunc (subFps r.fps)) 1 ∧
    1 ≤ sampleInterval (subFps r.fps) := by
  refine ⟨by simp [runAnalysis, h], ?_, ?_⟩
  · unfold sampleInterval; omega
  · unfold sampleInterval; omega

/-- Witness for the amended C1 at a concrete reader. -/
theorem sampleInterval_eq_trunc_witness :
    (runAnalysis id ⟨true, 640, 480, 30⟩ []).interval
      = some (sampleInterval (subFps 30)) ∧
    (sampleInterval (subFps 30) : Int) = max (ratTrunc (subFps 30)) 1 ∧
    1 ≤ sampleInterval (subFps 30) :=
  sampleInterval_eq_trunc id ⟨true, 640, 480, 30⟩ [] rfl

/-- C2 (confirmed): for every input — whatever its frames, detections and
failure pattern — the keypoint-sample list holds at most 3 entries, and the
bound holds at every step of the loop (the state after `n` processed frames is
the run on the length-`n` prefix). -/
theorem keypoint_samples_le_three (draw : Image → Image) (r : ReaderProps)
    (frames : List Frame) :
    (runAnalysis draw r frames).samples.length ≤ 3 ∧
    ∀ n : Nat, (runAnalysis draw r (frames.take n)).samples.length ≤ 3 := by
  have key : ∀ fs : List Frame, (runAnalysis draw r fs).samples.length ≤ 3 := by
    intro fs
    unfold runAnalysis
    cases hr : r.opened
    · simp
    · simpa using frameLoop_samples_length_le draw _ fs 0 [] [] (by simp)
  exact ⟨key frames, fun n => key (frames.take n)⟩

/-- C3 (confirmed): on a valid video (reader opens, no library call raises),
exactly one output frame is written per successfully read input frame. -/
theorem written_count_eq_read_count (draw : Image → Image) (r : ReaderProps)
    (frames : List Frame) (hopen : r.opened = true)
    (hok : ∀ f ∈ frames, f.fails = false) :
    (runAnalysis draw r frames).written.length = frames.length := by
  unfold runAnalysis
  rw [if_pos hopen]
  simp only
  rw [frameLoop_written_of_ok draw _ frames 0 [] [] hok]
  simp

/-- Witness for C3: a two-frame video yields two written frames. -/
theorem written_count_eq_read_count_witness :
    (runAnalysis id ⟨true, 640, 480, 30⟩
        [⟨⟨640, 480, fun _ _ => 0⟩, true, [], false⟩,
         ⟨⟨640, 480, fun _ _ => 0⟩, false, [], false⟩]).written.length = 2 :=
  written_count_eq_read_count id ⟨true, 640, 480, 30⟩ _ rfl
    (by intro f hf; simp only [List.mem_cons, List.not_mem_nil, or_false] at hf
        rcases hf with h | h <;> subst h <;> rfl)

/-- C4 (confirmed): on a valid video whose frames have the (possibly
default-substituted) input dimensions, the writer is opened at the swapped
dimensions (height, width), every written frame is the 90°-clockwise rotation
of the (possibly annotated) input frame, and hence every written frame has the
swapped dimensions. -/
theorem writer_dims_swapped (draw : Image → Image) (r : ReaderProps)
    (frames : List Frame) (hopen : r.opened = true)
    (hok : ∀ f ∈ frames, f.fails = false)
    (hdraw : ∀ img : Image, (draw img).w = img.w ∧ (draw img).h = img.h)
    (hdims : ∀ f ∈ frames, (f.img.w : Int) = subWidth r.width ∧
      (f.img.h : Int) = subHeight r.height) :
    (runAnalysis draw r frames).writerDims
      = some (subHeight r.height, subWidth r.width) ∧
    (runAnalysis draw r frames).written
      = frames.map (fun f => rotate90cw (if f.detected then draw f.img else f.img)) ∧
    ∀ img ∈ (runAnalysis draw r frames).written,
      (img.w : Int) = subHeight r.height ∧ (img.h : Int) = subWidth r.width := by
  have hwritten : (runAnalysis draw r frames).written
      = frames.map (fun f => rotate90cw (if f.detected then draw f.img else f.img)) := by
    unfold runAnalysis
    rw [if_pos hopen]
    simp only
    rw [frameLoop_written_of_ok draw _ frames 0 [] [] hok]
    simp
  refine ⟨by simp [runAnalysis, hopen], hwritten, ?_⟩
  intro img hmem
  rw [hwritten] at hmem
  obtain ⟨f, hf, rfl⟩ := List.mem_map.1 hmem
  have hd := hdims f hf
  cases hdet : f.detected
  · simpa [rotate90cw, hdet] using ⟨hd.2, hd.1⟩
  · have hD := hdraw f.img
    constructor
    · simpa [rotate90cw, hdet, hD.2] using hd.2
    · simpa [rotate90cw, hdet, hD.1] using hd.1

/-- Witness for C4: one detected 640×480 frame at the default reader. -/
theorem writer_dims_swapped_witness :
    (runAnalysis id ⟨true, 640, 480, 30⟩
        [⟨⟨640, 480, fun _ _ => 0⟩, true, [], false⟩]).writerDims
      = some (subHeight 480, subWidth 640) ∧
    (runAnalysis id ⟨true, 640, 480, 30⟩
        [⟨⟨640, 480, fun _ _ => 0⟩, true, [], false⟩]).written
      = ([⟨⟨640, 480, fun _ _ => 0⟩, true, [], false⟩] : List Frame).map
          (fun f => rotate90cw (if f.detected then id f.img else f.img)) ∧
    ∀ img ∈ (runAnalysis id ⟨true, 640, 480, 30⟩
        [⟨⟨640, 480, fun _ _ => 0⟩, true, [], false⟩]).written,
      (img.w : Int) = subHeight 480 ∧ (img.h : Int) = subWidth 640 :=
  writer_dims_swapped id ⟨true, 640, 480, 30⟩
    [⟨⟨640, 480, fun _ _ => 0⟩, true, [], false⟩] rfl
    (by intro f hf; rw [List.mem_singleton] at hf; subst hf; rfl)
    (fun img => ⟨rfl, rfl⟩)
    (by intro f hf; rw [List.mem_singleton] at hf; subst hf
        exact ⟨by decide, by decide⟩)

/-- C5 (confirmed): on a valid video, no sample is captured at an undetected
sampling slot and none is substituted later: the number of returned samples is
the number of sampling-slot frames carrying a detection, capped at 3 — which
can be fewer than 3. -/
theorem samples_eq_detected_slots (draw : Image → Image) (r : ReaderProps)
    (frames : List Frame) (hopen : r.opened = true)
    (hok : ∀ f ∈ frames, f.fails = false) :
    (runAnalysis draw r frames).samples.length
      = min 3 (slotDetectedCount (sampleInterval (subFps r.fps)) 0 frames) := by
  unfold runAnalysis
  rw [if_pos hopen]
  simp only
  rw [frameLoop_samples_count draw _ frames 0 [] [] hok (by simp)]
  simp

/-- Witness for C5: at 30 fps with two frames, only frame 0 is a sampling
slot; frame 0 is undetected, frame 1 detected, so zero samples are returned
even though a detection exists. -/
theorem samples_eq_detected_slots_witness :
    (runAnalysis id ⟨true, 640, 480, 30⟩
        [⟨⟨640, 480, fun _ _ => 0⟩, false, [], false⟩,
         ⟨⟨640, 480, fun _ _ => 0⟩, true, [], false⟩]).samples.length
      = min 3 (slotDetectedCount (sampleInterval (subFps 30)) 0
          [⟨⟨640, 480, fun _ _ => 0⟩, false, [], false⟩,
           ⟨⟨640, 480, fun _ _ => 0⟩, true, [], false⟩]) :=
  samples_eq_detected_slots id ⟨true, 640, 480, 30⟩ _ rfl
    (by intro f hf; simp only [List.mem_cons, List.not_mem_nil, or_false] at hf
        rcases hf with h | h <;> subst h <;> rfl)

/-- C6 (counterexample): the claim says a zero *or negative* reported frame
rate is replaced by the default 30.0.  The source's `fps = cap.get(...) or
30.0` substitutes only on a falsy (zero) value: a reported rate of −5 is kept
and handed to the writer unchanged. -/
theorem negative_fps_not_defaulted :
    (runAnalysis id ⟨true, 640, 480, -5⟩ []).writerFps = some (-5) ∧
    ((-5 : ℚ) < 0) ∧
    (runAnalysis id ⟨true, 640, 480, -5⟩ []).writerFps ≠ some 30 := by
  refine ⟨by decide, by decide, by decide⟩

/-- C6 (amended): only an exactly-zero reported frame rate is replaced by the
default 30.0; any nonzero rate — negative included — is used as reported, both
for the writer and for the sampling interval. -/
theorem fps_default_only_on_zero (draw : Image → Image) (r : ReaderProps)
    (frames : List Frame) (hopen : r.opened = true) :
    (r.fps = 0 → (runAnalysis draw r frames).writerFps = some 30) ∧
    (r.fps ≠ 0 → (runAnalysis draw r frames).writerFps = some r.fps) ∧
    (runAnalysis draw r frames).interval = some (sampleInterval (subFps r.fps)) := by
  refine ⟨?_, ?_, by simp [runAnalysis, hopen]⟩
  · intro h; simp [runAnalysis, hopen, subFps, h]
  · intro h; simp [runAnalysis, hopen, subFps, h]

/-- Witness for the amended C6: zero is defaulted, 7 is kept. -/
theorem fps_default_only_on_zero_witness :
    (runAnalysis id ⟨true, 640, 480, 0⟩ []).writerFps = some 30 ∧
    (runAnalysis id ⟨true, 640, 480, 7⟩ []).writerFps = some 7 :=
  ⟨(fps_default_only_on_zero id ⟨true, 640, 480, 0⟩ [] rfl).1 rfl,
   (fps_default_only_on_zero id ⟨true, 640, 480, 7⟩ [] rfl).2.1 (by norm_num)⟩

/-- C7 (counterexample): the claim says that when any of width/height is zero,
the default dimensions 640×480 are substituted.  The source substitutes each
dimension independently: with reported width 0 and height 720 the run uses
(640, 720), not (640, 480). -/
theorem zero_width_keeps_nonzero_height :
    (runAnalysis id ⟨true, 0, 720, 30⟩ []).videoDims = some (640, 720) ∧
    (runAnalysis id ⟨true, 0, 720, 30⟩ []).videoDims ≠ some (640, 480) := by
  refine ⟨by decide, by decide⟩

/-- C7 (amended): the defaults are substituted per dimension — a zero reported
width becomes 640 and a zero reported height becomes 480, while a nonzero
dimension is kept even when the other one is zero. -/
theorem dims_default_per_dimension (draw : Image → Image) (r : ReaderProps)
    (frames : List Frame) (hopen : r.opened = true) :
    (runAnalysis draw r frames).videoDims
      = some (subWidth r.width, subHeight r.height) ∧
    (r.width = 0 → subWidth r.width = 640) ∧
    (r.width ≠ 0 → subWidth r.width = r.width) ∧
    (r.height = 0 → subHeight r.height = 480) ∧
    (r.height ≠ 0 → subHeight r.height = r.height) := by
  refine ⟨by simp [runAnalysis, hopen], ?_, ?_, ?_, ?_⟩ <;>
    intro h <;> simp [subWidth, subHeight, h]

/-- Witness for the amended C7 at reported width 0 and height 720. -/
theorem dims_default_per_dimension_witness :
    (runAnalysis id ⟨true, 0, 720, 30⟩ []).videoDims
      = some (subWidth 0, subHeight 720) ∧
    subWidth 0 = 640 ∧ subHeight 720 = 720 :=
  have t := dims_default_per_dimension id ⟨true, 0, 720, 30⟩ [] rfl
  ⟨t.1, t.2.1 rfl, t.2.2.2.2 (by decide)⟩

/-- C8 (counterexample): the claim says the reader is released and the writer
finalized on every exit path, exceptions included.  The release calls sit
after the loop with no `finally` scope, so an exception raised while
processing a frame propagates past both: on a one-frame video whose
processing raises, neither release runs. -/
theorem releases_skipped_on_exception :
    (runAnalysis id ⟨true, 640, 480, 30⟩
        [⟨⟨640, 480, fun _ _ => 0⟩, false, [], true⟩]).capReleased = false ∧
    (runAnalysis id ⟨true, 640, 480, 30⟩
        [⟨⟨640, 480, fun _ _ => 0⟩, false, [], true⟩]).writerReleased = false ∧
    (runAnalysis id ⟨true, 640, 480, 30⟩
        [⟨⟨640, 480, fun _ _ => 0⟩, false, [], true⟩]).error
      = some VideoError.loopFailure :=
  ⟨rfl, rfl, rfl⟩

/-- C8 (amended): the reader is released and the writer finalized on normal
loop completion and on the early stop when a read fails, but not when an
exception is raised during the loop — then both release calls are skipped (the
scoped pose session is the only resource whose release is guaranteed). -/
theorem releases_iff_no_exception (draw : Image → Image) (r : ReaderProps)
    (frames : List Frame) (hopen : r.opened = true) :
    ((∀ f ∈ frames, f.fails = false) →
      (runAnalysis draw r frames).capReleased = true ∧
      (runAnalysis draw r frames).writerReleased = true) ∧
    ((∃ f ∈ frames, f.fails = true) →
      (runAnalysis draw r frames).capReleased = false ∧
      (runAnalysis draw r frames).writerReleased = false) := by
  constructor
  · intro hok
    have hany : frames.any (fun f => f.fails) = false := by
      simp only [List.any_eq_false]
      intro f hf
      simp [hok f hf]
    unfold runAnalysis
    rw [if_pos hopen]
    simp [frameLoop_exn draw _ frames 0 [] [], hany]
  · intro hex
    have hany : frames.any (fun f => f.fails) = true := by
      simp only [List.any_eq_true]
      obtain ⟨f, hf, hfail⟩ := hex
      exact ⟨f, hf, by simp [hfail]⟩
    unfold runAnalysis
    rw [if_pos hopen]
    simp [frameLoop_exn draw _ frames 0 [] [], hany]

/-- Witness for the amended C8: an exception-free run releases both; a run
with a raising frame releases neither. -/
theorem releases_iff_no_exception_witness :
    ((runAnalysis id ⟨true, 640, 480, 30⟩ []).capReleased = true ∧
     (runAnalysis id ⟨true, 640, 480, 30⟩ []).writerReleased = true) ∧
    ((runAnalysis id ⟨true, 640, 480, 30⟩
        [⟨⟨1, 1, fun _ _ => 0⟩, false, [], true⟩]).capReleased = false ∧
     (runAnalysis id ⟨true, 640, 480, 30⟩
        [⟨⟨1, 1, fun _ _ => 0⟩, false, [], true⟩]).writerReleased = false) :=
  ⟨(releases_iff_no_exception id ⟨true, 640, 480, 30⟩ [] rfl).1
      (by intro f hf; exact absurd hf (List.not_mem_nil f)),
   (releases_iff_no_exception id ⟨true, 640, 480, 30⟩
        [⟨⟨1, 1, fun _ _ => 0⟩, false, [], true⟩] rfl).2
      ⟨⟨⟨1, 1, fun _ _ => 0⟩, false, [], true⟩, by simp, rfl⟩⟩

/-- C9 (confirmed): the upload endpoint fails exactly when `analyze_video`
raises: any error (open failure or loop failure) becomes status 500 with the
one fixed detail message and nothing else — no partial sample list — while on
success the full payload (message, stored filename, annotated name, keypoint
samples) is returned. -/
theorem upload_failure_iff_analysis_failure (draw : Image → Image)
    (r : ReaderProps) (frames : List Frame) (stem ext g : String) :
    (∀ e, analyze_video draw r frames stem ext = Except.error e →
      upload_video draw r frames stem ext g
        = UploadResponse.failure 500 failureDetail) ∧
    (∀ an kps, analyze_video draw r frames stem ext = Except.ok (an, kps) →
      upload_video draw r frames stem ext g
        = UploadResponse.success successMessage g an kps) ∧
    (∀ s d, upload_video draw r frames stem ext g = UploadResponse.failure s d →
      s = 500 ∧ d = failureDetail ∧
        ∃ e, analyze_video draw r frames stem ext = Except.error e) := by
  refine ⟨?_, ?_, ?_⟩
  · intro e he; simp [upload_video, he]
  · intro an kps hok; simp [upload_video, hok]
  · intro s d hresp
    unfold upload_video at hresp
    cases hA : analyze_video draw r frames stem ext with
    | error e =>
      rw [hA] at hresp
      simp only [UploadResponse.failure.injEq] at hresp
      exact ⟨hresp.1.symm, hresp.2.symm, e, rfl⟩
    | ok res =>
      rw [hA] at hresp
      simp at hresp

/-- Witness for C9: an unopenable input produces the fixed 500; an empty valid
video produces the success payload with an empty keypoint list. -/
theorem upload_failure_iff_analysis_failure_witness :
    upload_video id ⟨false, 0, 0, 0⟩ [] "v" ".mp4" "g"
      = UploadResponse.failure 500 failureDetail ∧
    upload_video id ⟨true, 640, 480, 30⟩ [] "v" ".mp4" "g"
      = UploadResponse.success successMessage "g" (annotatedName "v" ".mp4") [] :=
  ⟨(upload_failure_iff_analysis_failure id ⟨false, 0, 0, 0⟩ [] "v" ".mp4" "g").1
      VideoError.openFailure rfl,
   (upload_failure_iff_analysis_failure id ⟨true, 640, 480, 30⟩ [] "v" ".mp4" "g").2.1
      (annotatedName "v" ".mp4") [] rfl⟩

/-- C10 (confirmed): when the input cannot be opened, `analyze_video` raises
the open failure before the writer is ever constructed: no writer (hence no
annotated output file) is created, nothing is written, and the keypoint sample
state is never touched. -/
theorem open_failure_before_writer (draw : Image → Image) (r : ReaderProps)
    (frames : List Frame) (stem ext : String) (h : r.opened = false) :
    (runAnalysis draw r frames).writerCreated = false ∧
    (runAnalysis draw r frames).writerDims = none ∧
    (runAnalysis draw r frames).writerFps = none ∧
    (runAnalysis draw r frames).samples = [] ∧
    (runAnalysis draw r frames).written = [] ∧
    analyze_video draw r frames stem ext
      = Except.error VideoError.openFailure := by
  refine ⟨?_, ?_, ?_, ?_, ?_, ?_⟩ <;> simp [runAnalysis, analyze_video, h]

/-- Witness for C10 at a concrete unopenable input. -/
theorem open_failure_before_writer_witness :
    (runAnalysis id ⟨false, 640, 480, 30⟩ []).writerCreated = false ∧
    (runAnalysis id ⟨false, 640, 480, 30⟩ []).writerDims = none ∧
    (runAnalysis id ⟨false, 640, 480, 30⟩ []).writerFps = none ∧
    (runAnalysis id ⟨false, 640, 480, 30⟩ []).samples = [] ∧
    (runAnalysis id ⟨false, 640, 480, 30⟩ []).written = [] ∧
    analyze_video id ⟨false, 640, 480, 30⟩ [] "v" ".mp4"
      = Except.error VideoError.openFailure :=
  open_failure_before_writer id ⟨false, 640, 480, 30⟩ [] "v" ".mp4" rfl

end MovementAnalysis
